import Mathlib

/-
  Verification of the serverHealth metrics collector.

  Shallow embedding of `src/health_collector.cpp` and the cache protocol of
  `src/main.cpp`.  Machine `long` values are modelled as `Int`, `float`
  percentages as exact rationals (`ℚ`), C++ strings as `String` or
  `List Char`, and the external data sources (pseudo-files, commands) as the
  already-tokenised values the C++ stream-extraction produces from them.
-/

namespace ServerHealth

/-! ### CPU collector — `HealthCollector::getCpuInfo` -/

/-- Result record of the CPU collector (`struct CpuInfo` in the header,
`float` fields modelled as `ℚ`). -/
structure CpuInfo where
  usage_percent : ℚ
  idle_percent : ℚ
deriving DecidableEq

/-- `total1`/`total2` in `getCpuInfo`: the sum of all counter fields of one
sample (`for (auto x : v) total += x;`). -/
def cpuTotal (v : List Int) : Int := v.foldl (· + ·) 0

/-- `HealthCollector::getCpuInfo`, as a function of the two token lists the
two `/proc/stat` samples parse to.  Mirrors the source: zero record when a
sample has fewer than 4 fields, else delta of totals and of the idle field
(index 3); percentages only when `d_total > 0`. -/
def getCpuInfo (v1 v2 : List Int) : CpuInfo :=
  if v1.length < 4 ∨ v2.length < 4 then ⟨0, 0⟩
  else
    let idle1 := v1.getD 3 0
    let idle2 := v2.getD 3 0
    let d_total : Int := cpuTotal v2 - cpuTotal v1
    let d_idle : Int := idle2 - idle1
    if 0 < d_total then
      let ip : ℚ := 100 * (d_idle : ℚ) / (d_total : ℚ)
      ⟨100 - ip, ip⟩
    else ⟨0, 0⟩

/-! ### Memory collector — `HealthCollector::getMemoryInfo` -/

/-- Result record of the memory collector (`struct MemoryInfo`). -/
structure MemoryInfo where
  total_kb : Int
  used_kb : Int
  free_kb : Int
  available_kb : Int
  usage_percent : ℚ
deriving DecidableEq

/-- One iteration of the `/proc/meminfo` reading loop: a line parsed to
`(key, val)` updates the matching field, others are ignored. -/
def memLine (info : MemoryInfo) (l : String × Int) : MemoryInfo :=
  if l.1 = "MemTotal:" then { info with total_kb := l.2 }
  else if l.1 = "MemFree:" then { info with free_kb := l.2 }
  else if l.1 = "MemAvailable:" then { info with available_kb := l.2 }
  else info

/-- `HealthCollector::getMemoryInfo`, as a function of the parsed
`(key, value)` lines of the memory source.  `MemoryInfo info{}` zero-init,
the reading loop, then `used_kb` and the guarded `usage_percent`. -/
def getMemoryInfo (lines : List (String × Int)) : MemoryInfo :=
  let info := lines.foldl memLine ⟨0, 0, 0, 0, 0⟩
  let info := { info with used_kb := info.total_kb - info.free_kb }
  if 0 < info.total_kb then
    { info with
      usage_percent := 100 * ((info.total_kb - info.available_kb : Int) : ℚ) / (info.total_kb : ℚ) }
  else info

theorem memLine_usage (info : MemoryInfo) (l : String × Int) :
    (memLine info l).usage_percent = info.usage_percent := by
  unfold memLine
  split_ifs <;> rfl

theorem foldl_memLine_usage (lines : List (String × Int)) :
    ∀ info : MemoryInfo,
      (lines.foldl memLine info).usage_percent = info.usage_percent := by
  induction lines with
  | nil => intro info; rfl
  | cons l rest ih =>
    intro info
    rw [List.foldl_cons, ih, memLine_usage]

/-- Claim C1: with both samples holding at least 4 fields and
`d_total = total2 − total1 > 0`, `getCpuInfo` returns
`idle_percent = 100·d_idle/d_total` and `usage_percent = 100 − idle_percent`,
so the two sum to 100; with `d_total ≤ 0` or a short sample it returns the
zero-valued record. -/
theorem getCpuInfo_spec (v1 v2 : List Int) :
    (4 ≤ v1.length → 4 ≤ v2.length → 0 < cpuTotal v2 - cpuTotal v1 →
      (getCpuInfo v1 v2).idle_percent =
          100 * ((v2.getD 3 0 - v1.getD 3 0 : Int) : ℚ) /
            ((cpuTotal v2 - cpuTotal v1 : Int) : ℚ) ∧
      (getCpuInfo v1 v2).usage_percent = 100 - (getCpuInfo v1 v2).idle_percent ∧
      (getCpuInfo v1 v2).usage_percent + (getCpuInfo v1 v2).idle_percent = 100) ∧
    ((cpuTotal v2 - cpuTotal v1 ≤ 0 ∨ v1.length < 4 ∨ v2.length < 4) →
      getCpuInfo v1 v2 = ⟨0, 0⟩) := by
  constructor
  · intro h1 h2 hd
    have hshort : ¬ (v1.length < 4 ∨ v2.length < 4) := by omega
    unfold getCpuInfo
    rw [if_neg hshort, if_pos hd]
    refine ⟨rfl, rfl, ?_⟩
    ring
  · intro h
    unfold getCpuInfo
    rcases h with hd | hs | hs
    · by_cases hshort : v1.length < 4 ∨ v2.length < 4
      · rw [if_pos hshort]
      · rw [if_neg hshort, if_neg (by omega)]
    · rw [if_pos (Or.inl hs)]
    · rw [if_pos (Or.inr hs)]

/-- Witness for C1: both branches of `getCpuInfo_spec` at concrete samples. -/
theorem getCpuInfo_spec_witness :
    ((getCpuInfo [1, 1, 1, 1] [2, 2, 2, 2]).usage_percent +
        (getCpuInfo [1, 1, 1, 1] [2, 2, 2, 2]).idle_percent = 100) ∧
    getCpuInfo [5, 5, 5, 5] [1, 1, 1, 1] = ⟨0, 0⟩ :=
  ⟨((getCpuInfo_spec [1, 1, 1, 1] [2, 2, 2, 2]).1 (by decide) (by decide)
      (by decide)).2.2,
   (getCpuInfo_spec [5, 5, 5, 5] [1, 1, 1, 1]).2 (Or.inl (by decide))⟩

theorem getMemoryInfo_total (lines : List (String × Int)) :
    (getMemoryInfo lines).total_kb =
      (lines.foldl memLine ⟨0, 0, 0, 0, 0⟩).total_kb := by
  simp only [getMemoryInfo]
  split_ifs <;> rfl

theorem getMemoryInfo_example :
    getMemoryInfo [("MemTotal:", 1000000), ("MemFree:", 400000),
        ("MemAvailable:", 600000)] =
      ⟨1000000, 600000, 400000, 600000, 40⟩ := by
  have h1 : getMemoryInfo [("MemTotal:", 1000000), ("MemFree:", 400000),
      ("MemAvailable:", 600000)] =
        ⟨1000000, 600000, 400000, 600000,
          100 * ((1000000 - 600000 : Int) : ℚ) / ((1000000 : Int) : ℚ)⟩ := rfl
  rw [h1]
  norm_num [MemoryInfo.mk.injEq]

/-- Claim C5: for every memory source, `used_kb = total_kb − free_kb`;
`usage_percent = 100·(total−available)/total` when `total_kb > 0` and `0`
otherwise; and the concrete example total=1000000, free=400000,
available=600000 yields used=600000 and usage 40. -/
theorem getMemoryInfo_spec (lines : List (String × Int)) :
    (getMemoryInfo lines).used_kb =
        (getMemoryInfo lines).total_kb - (getMemoryInfo lines).free_kb ∧
    (0 < (getMemoryInfo lines).total_kb →
      (getMemoryInfo lines).usage_percent =
        100 * (((getMemoryInfo lines).total_kb -
            (getMemoryInfo lines).available_kb : Int) : ℚ) /
          ((getMemoryInfo lines).total_kb : ℚ)) ∧
    ((getMemoryInfo lines).total_kb ≤ 0 → (getMemoryInfo lines).usage_percent = 0) ∧
    getMemoryInfo [("MemTotal:", 1000000), ("MemFree:", 400000),
        ("MemAvailable:", 600000)] =
      ⟨1000000, 600000, 400000, 600000, 40⟩ := by
  refine ⟨?_, ?_, ?_, getMemoryInfo_example⟩
  · simp only [getMemoryInfo]
    split_ifs <;> rfl
  · intro hpos
    rw [getMemoryInfo_total] at hpos
    simp only [getMemoryInfo]
    rw [if_pos hpos]
  · intro hle
    rw [getMemoryInfo_total] at hle
    simp only [getMemoryInfo]
    rw [if_neg (not_lt.mpr hle)]
    exact foldl_memLine_usage lines ⟨0, 0, 0, 0, 0⟩

/-- Witness for C5: the guarded clauses of `getMemoryInfo_spec` discharged at
concrete sources with positive and zero totals. -/
theorem getMemoryInfo_spec_witness :
    ((getMemoryInfo [("MemTotal:", 1000000), ("MemFree:", 400000),
          ("MemAvailable:", 600000)]).usage_percent = 40) ∧
    (getMemoryInfo []).usage_percent = 0 :=
  ⟨by
    rw [(getMemoryInfo_spec [("MemTotal:", 1000000), ("MemFree:", 400000),
        ("MemAvailable:", 600000)]).2.1 (by rw [getMemoryInfo_example]; decide),
      getMemoryInfo_example]
    norm_num,
   (getMemoryInfo_spec []).2.2.1 (Int.le_refl 0)⟩

/-! ### Shared string helpers -/

/-- `s.rfind(p, 0) == 0` in the C++ source: the character list `p` starts the
character list `s`. -/
def listStarts : List Char → List Char → Bool
  | [], _ => true
  | _ :: _, [] => false
  | a :: ps, b :: cs => a = b && listStarts ps cs

/-- String wrapper for `listStarts`. -/
def strStarts (p s : String) : Bool := listStarts p.data s.data

/-! ### Disk space collector — `HealthCollector::getDiskInfo` -/

/-- One parsed line of the mount table: `ss >> dev >> mount >> fstype`. -/
structure MountEntry where
  dev : String
  mount : String
  fstype : String
deriving DecidableEq

/-- The fields of `struct statvfs` the collector consumes (unsigned, so
`Nat`). -/
structure StatVfs where
  f_blocks : Nat
  f_bfree : Nat
  f_frsize : Nat
deriving DecidableEq

/-- Result record of the disk-space collector (`struct DiskInfo`). -/
structure DiskInfo where
  path : String
  total_kb : Int
  used_kb : Int
  free_kb : Int
  usage_percent : ℚ
deriving DecidableEq

/-- The deny-list test on the filesystem type, verbatim from the `continue`
condition of `getDiskInfo`. -/
def denyFstype (t : String) : Bool :=
  t = "proc" || t = "sysfs" || t = "tmpfs" ||
  t = "devtmpfs" || t = "cgroup" || t = "cgroup2" ||
  t = "devpts" || t = "overlay" || t = "none"

/-- One iteration of the `getDiskInfo` loop on a parsed mount line: the two
filters, the `statvfs` query (`none` models a non-zero return, dropping the
entry), the kB conversions and the guarded percentage. -/
def diskEntry (stat : String → Option StatVfs) (e : MountEntry) : Option DiskInfo :=
  if denyFstype e.fstype then none
  else if ¬ strStarts ("/dev/") e.dev then none
  else
    match stat e.mount with
    | none => none
    | some st =>
      let total : Int := ((st.f_blocks * st.f_frsize) / 1024 : Nat)
      let free : Int := ((st.f_bfree * st.f_frsize) / 1024 : Nat)
      let used : Int := total - free
      some
        { path := e.mount, total_kb := total, used_kb := used, free_kb := free,
          usage_percent :=
            if 0 < total then 100 * (used : ℚ) / (total : ℚ) else 0 }

/-- `HealthCollector::getDiskInfo`, as a function of the parsed mount table
and of the `statvfs` results per mount point. -/
def getDiskInfo (mounts : List MountEntry) (stat : String → Option StatVfs) :
    List DiskInfo :=
  mounts.filterMap (diskEntry stat)

/-! ### Disk I/O collector — `HealthCollector::getDiskIOStats` -/

/-- One parsed line of the per-device I/O statistics table:
`major minor name` then the seven numeric columns the loop extracts
(`reads_completed, dummy, read_sectors, dummy, writes_completed, dummy,
write_sectors`). -/
structure DiskStatLine where
  major : Int
  minor : Int
  name : String
  col1 : Int
  col2 : Int
  col3 : Int
  col4 : Int
  col5 : Int
  col6 : Int
  col7 : Int
deriving DecidableEq

/-- Result record of the disk I/O collector (`struct DiskIO`). -/
structure DiskIO where
  name : String
  reads_completed : Int
  writes_completed : Int
  read_sectors : Int
  write_sectors : Int
deriving DecidableEq

/-- `std::isdigit` scan of `getDiskIOStats`: the name holds some digit. -/
def hasDigit (s : String) : Bool := s.data.any Char.isDigit

/-- One iteration of the `getDiskIOStats` loop: skip `loop*`/`ram*` names and
names holding a digit, else keep the four extracted counters. -/
def diskIOEntry (l : DiskStatLine) : Option DiskIO :=
  if strStarts ("loop") l.name || strStarts ("ram") l.name then none
  else if hasDigit l.name then none
  else some ⟨l.name, l.col1, l.col5, l.col3, l.col7⟩

/-- `HealthCollector::getDiskIOStats`, as a function of the parsed statistics
lines. -/
def getDiskIOStats (lines : List DiskStatLine) : List DiskIO :=
  lines.filterMap diskIOEntry

/-- Claim C6: every disk entry in the output stems from a mount line that
passed both filters (fstype not on the deny-list, device under `/dev/`), so
deny-listed and non-block entries are excluded whatever the table holds; and
an output entry with `total_kb = 0` has `usage_percent = 0`. -/
theorem getDiskInfo_spec (mounts : List MountEntry)
    (stat : String → Option StatVfs) (di : DiskInfo)
    (h : di ∈ getDiskInfo mounts stat) :
    (∃ e ∈ mounts, denyFstype e.fstype = false ∧
      strStarts ("/dev/") e.dev = true ∧ di.path = e.mount) ∧
    (di.total_kb = 0 → di.usage_percent = 0) := by
  rw [getDiskInfo, List.mem_filterMap] at h
  obtain ⟨e, he, hsome⟩ := h
  unfold diskEntry at hsome
  by_cases hd : denyFstype e.fstype
  · rw [if_pos hd] at hsome
    exact absurd hsome (by simp)
  · rw [if_neg hd] at hsome
    by_cases hs : strStarts ("/dev/") e.dev
    · rw [if_neg (by simp [hs])] at hsome
      rcases hst : stat e.mount with _ | st
      · rw [hst] at hsome
        exact absurd hsome (by simp)
      · rw [hst] at hsome
        simp only [Option.some.injEq] at hsome
        subst hsome
        refine ⟨⟨e, he, by simp [hd], hs, rfl⟩, fun h0 => ?_⟩
        simp only at h0 ⊢
        rw [if_neg (by omega)]
    · rw [if_pos (by simp [hs])] at hsome
      exact absurd hsome (by simp)

/-- Witness for C6: `getDiskInfo_spec` at a one-line mount table whose
`statvfs` reports zero blocks. -/
theorem getDiskInfo_spec_witness :
    ((∃ e ∈ [(⟨"/dev/sda1", "/", "ext4"⟩ : MountEntry)],
        denyFstype e.fstype = false ∧
        strStarts ("/dev/") e.dev = true ∧
        (⟨"/", 0, 0, 0, 0⟩ : DiskInfo).path = e.mount) ∧
      ((⟨"/", 0, 0, 0, 0⟩ : DiskInfo).total_kb = 0 →
        (⟨"/", 0, 0, 0, 0⟩ : DiskInfo).usage_percent = 0)) :=
  getDiskInfo_spec [⟨"/dev/sda1", "/", "ext4"⟩] (fun _ => some ⟨0, 0, 0⟩)
    ⟨"/", 0, 0, 0, 0⟩ (by decide)

/-- Claim C7: no entry produced by the disk I/O collector has a digit in its
device name, and none has a name starting with `loop` or `ram`. -/
theorem getDiskIOStats_spec (lines : List DiskStatLine) (io : DiskIO)
    (h : io ∈ getDiskIOStats lines) :
    (∀ c ∈ io.name.data, ¬ c.isDigit) ∧
    strStarts ("loop") io.name = false ∧
    strStarts ("ram") io.name = false := by
  rw [getDiskIOStats, List.mem_filterMap] at h
  obtain ⟨l, _, hsome⟩ := h
  unfold diskIOEntry at hsome
  by_cases hv : strStarts ("loop") l.name || strStarts ("ram") l.name
  · rw [if_pos hv] at hsome
    exact absurd hsome (by simp)
  · rw [if_neg hv] at hsome
    by_cases hdig : hasDigit l.name
    · rw [if_pos hdig] at hsome
      exact absurd hsome (by simp)
    · rw [if_neg hdig] at hsome
      simp only [Option.some.injEq] at hsome
      subst hsome
      simp only [Bool.or_eq_true, not_or, Bool.not_eq_true] at hv
      refine ⟨fun c hc => ?_, hv.1, hv.2⟩
      rw [hasDigit, List.any_eq_true] at hdig
      push_neg at hdig
      simpa using hdig c hc

/-- Witness for C7: `getDiskIOStats_spec` at a concrete one-line table. -/
theorem getDiskIOStats_spec_witness :
    (∀ c ∈ (⟨"sda", 1, 3, 2, 4⟩ : DiskIO).name.data, ¬ c.isDigit) ∧
    strStarts ("loop") (⟨"sda", 1, 3, 2, 4⟩ : DiskIO).name = false ∧
    strStarts ("ram") (⟨"sda", 1, 3, 2, 4⟩ : DiskIO).name = false :=
  getDiskIOStats_spec [⟨8, 0, "sda", 1, 0, 2, 0, 3, 0, 4⟩]
    ⟨"sda", 1, 3, 2, 4⟩ (by decide)

/-! ### JSON string escaping — `escapeJson` -/

/-- `escapeJson` from the source: per character, `"` becomes `\"`, `\`
becomes `\\`, a newline becomes `\n`, every other character is copied. -/
def escapeJson : List Char → List Char
  | [] => []
  | c :: cs =>
    if c = '"' then '\\' :: '"' :: escapeJson cs
    else if c = '\\' then '\\' :: '\\' :: escapeJson cs
    else if c = '\n' then '\\' :: 'n' :: escapeJson cs
    else c :: escapeJson cs

/-- A control character in the JSON sense (code point below 0x20). -/
def isCtrl (c : Char) : Bool := c.toNat < 32

/-- The property C8 asserts of escaped output: scanning the text, a
backslash must start a two-character escape (`\"`, `\\` or `\n`), and no bare
double quote, backslash or control character may occur. -/
def noUnescapedSpecials : List Char → Bool
  | [] => true
  | c :: rest =>
    if c = '\\' then
      match rest with
      | [] => false
      | d :: rest2 => (d = '"' || d = '\\' || d = 'n') && noUnescapedSpecials rest2
    else
      !(c = '"' || isCtrl c) && noUnescapedSpecials rest

/-- The property that actually holds of the output: no bare double quote,
backslash or newline — but control characters other than the newline pass
through unescaped. -/
def noRawQuoteBackslashNl : List Char → Bool
  | [] => true
  | c :: rest =>
    if c = '\\' then
      match rest with
      | [] => false
      | d :: rest2 => (d = '"' || d = '\\' || d = 'n') && noRawQuoteBackslashNl rest2
    else
      !(c = '"' || c = '\n') && noRawQuoteBackslashNl rest

/-- Counterexample to C8 as stated: a tab character is a control character,
yet `escapeJson` passes it through unescaped. -/
theorem escapeJson_ctrl_counterexample :
    escapeJson ['\t'] = ['\t'] ∧ isCtrl '\t' = true ∧
    noUnescapedSpecials (escapeJson ['\t']) = false := by
  refine ⟨rfl, rfl, ?_⟩
  decide

/-- Claim C8 amended: for every input, the escaped output holds no unescaped
double quote, backslash or newline (every backslash starts one of the
two-character escapes `\"`, `\\`, `\n`); control characters other than the
newline are not escaped. -/
theorem escapeJson_spec (s : List Char) :
    noRawQuoteBackslashNl (escapeJson s) = true := by
  induction s with
  | nil => rfl
  | cons c cs ih =>
    by_cases h1 : c = '"'
    · subst h1
      simp [escapeJson, noRawQuoteBackslashNl, ih]
    · by_cases h2 : c = '\\'
      · subst h2
        simp [escapeJson, noRawQuoteBackslashNl, ih]
      · by_cases h3 : c = '\n'
        · subst h3
          simp [escapeJson, noRawQuoteBackslashNl, ih]
        · rw [escapeJson.eq_def]
          simp only [if_neg h1, if_neg h2, if_neg h3]
          rw [noRawQuoteBackslashNl.eq_def]
          simp [h1, h2, h3, ih]

/-! ### Container health derivation — `extractHealth` -/

/-- `std::string::find(ch)` on a character list: index of the first
occurrence, `none` for `npos`. -/
def findCharIdx (ch : Char) : List Char → Option Nat
  | [] => none
  | d :: rest => if d = ch then some 0 else (findCharIdx ch rest).map (· + 1)

/-- `extractHealth` from the source, on the status text as a character list:
find the first `'('` (else "none"); take the text up to the matching
`find(')', lp)` (to the end when absent, mirroring `substr(lp+1, npos)`);
classify it. -/
def extractHealth (status : List Char) : String :=
  match findCharIdx '(' status with
  | none => "none"
  | some lp =>
    let tail := status.drop (lp + 1)
    let inner : List Char :=
      match findCharIdx ')' tail with
      | none => tail
      | some k => tail.take k
    if inner = ("healthy").data then "healthy"
    else if inner = ("unhealthy").data then "unhealthy"
    else if listStarts (("health:").data) inner then "starting"
    else "none"

/-- The spec's reading of the scan: the text after the first `'('`, cut at
the first `')'`. -/
def tilClose : List Char → List Char
  | [] => []
  | c :: rest => if c = ')' then [] else c :: tilClose rest

/-- The spec's "parenthesized suffix": `none` when the status has no `'('`,
else the inner text of the first parenthetical. -/
def parenInner : List Char → Option (List Char)
  | [] => none
  | c :: rest => if c = '(' then some (tilClose rest) else parenInner rest

/-- The spec's classification of a status text: `healthy` for inner text
exactly `healthy`, `unhealthy` for exactly `unhealthy`, `starting` for a
`health:` prefix, `none` otherwise or when no parenthetical is present. -/
def healthOfStatus (status : List Char) : String :=
  match parenInner status with
  | none => "none"
  | some inner =>
    if inner = ("healthy").data then "healthy"
    else if inner = ("unhealthy").data then "unhealthy"
    else if listStarts (("health:").data) inner then "starting"
    else "none"

theorem parenInner_eq_find (s : List Char) :
    parenInner s = (findCharIdx '(' s).map (fun lp => tilClose (s.drop (lp + 1))) := by
  induction s with
  | nil => rfl
  | cons c rest ih =>
    by_cases hc : c = '('
    · subst hc
      simp [parenInner, findCharIdx]
    · simp only [parenInner, findCharIdx, if_neg hc, ih]
      cases findCharIdx '(' rest with
      | none => rfl
      | some k => rfl

theorem tilClose_eq_find (t : List Char) :
    tilClose t =
      match findCharIdx ')' t with
      | none => t
      | some k => t.take k := by
  induction t with
  | nil => rfl
  | cons c rest ih =>
    by_cases hc : c = ')'
    · subst hc
      simp [tilClose, findCharIdx]
    · simp only [tilClose, findCharIdx, if_neg hc, ih]
      cases findCharIdx ')' rest with
      | none => rfl
      | some k => rfl

/-- Claim C4: the five status examples map to healthy / unhealthy /
starting / none / none, and on every status text the source's
`extractHealth` agrees with the spec's parenthesized-suffix classification
`healthOfStatus`. -/
theorem extractHealth_spec :
    extractHealth (("Up 2 hours (healthy)").data) = "healthy" ∧
    extractHealth (("Up 3 minutes (unhealthy)").data) = "unhealthy" ∧
    extractHealth (("Up 5 minutes (health: starting)").data) = "starting" ∧
    extractHealth (("Up 2 hours").data) = "none" ∧
    extractHealth (("Exited (0) 3 hours ago").data) = "none" ∧
    ∀ status : List Char, extractHealth status = healthOfStatus status := by
  refine ⟨by decide, by decide, by decide, by decide, by decide, fun status => ?_⟩
  rw [extractHealth, healthOfStatus, parenInner_eq_find]
  cases findCharIdx '(' status with
  | none => rfl
  | some lp =>
    have hmap : Option.map (fun lp => tilClose (status.drop (lp + 1))) (some lp) =
        some (tilClose (status.drop (lp + 1))) := rfl
    rw [hmap, tilClose_eq_find]

/-! ### Internet-speed probe cache — `HealthCollector::updateSpeedTestCache`
and the refresher loop of `main.cpp` -/

/-- `struct SpeedTestResult` (header): rates as `ℚ`, the ISO timestamp as a
plain string. -/
structure SpeedTestResult where
  download_mbps : ℚ
  upload_mbps : ℚ
  timestamp : String
  available : Bool
deriving DecidableEq

/-- The value of the static `s_speedResult` before any refresh cycle: the
in-class member initializers `download_mbps = 0`, `upload_mbps = 0`,
`available = false` and a default-constructed timestamp. -/
def initSpeedResult : SpeedTestResult := ⟨0, 0, "", false⟩

/-- Outcome of the primary probe as the code consumes it: whether
`which speedtest-cli` returned a path, and the download/upload values the
line-parsing loop leaves in the result (`0` when a line is absent or its
number fails to extract). -/
structure PrimaryProbe where
  present : Bool
  download : ℚ
  upload : ℚ
deriving DecidableEq

/-- `HealthCollector::updateSpeedTestCache` as a function of the two probe
outcomes and of the formatted completion timestamp.  `fb = none` models an
empty curl output or a `std::stof` throw; `fb = some b` a parsed
bytes-per-second value. -/
def updateSpeedTestCache (p : PrimaryProbe) (fb : Option ℚ) (ts : String) :
    SpeedTestResult :=
  let res1 : SpeedTestResult :=
    if p.present then
      ⟨p.download, p.upload, "", decide (0 < p.download) || decide (0 < p.upload)⟩
    else ⟨0, 0, "", false⟩
  let res2 : SpeedTestResult :=
    if res1.available then res1
    else
      match fb with
      | none => res1
      | some bytesPerSec =>
        let d : ℚ := bytesPerSec * 8 / 1000000
        ⟨d, res1.upload_mbps, "", decide (0 < d)⟩
  ⟨res2.download_mbps, res2.upload_mbps, ts, res2.available⟩

/-- One refresh cycle of the background thread in `main.cpp`: the probe
outcomes it observes and the timestamp it formats. -/
structure Cycle where
  primary : PrimaryProbe
  fallback : Option ℚ
  ts : String
deriving DecidableEq

/-- The cache write at the end of a cycle.  The previous cache value is a
parameter only to show it is never consulted: the code builds `res` from a
fresh default-constructed record and assigns it wholesale. -/
def refreshStep (prev : SpeedTestResult) (c : Cycle) : SpeedTestResult :=
  updateSpeedTestCache c.primary c.fallback c.ts

/-- Cache contents after a list of refresh cycles, starting from the static
initial value. -/
def cacheAfter (cs : List Cycle) : SpeedTestResult :=
  cs.foldl refreshStep initSpeedResult

/-- The primary method yields no usable rate: the tool is absent, or the
parsing loop leaves both rates at zero (missing lines, failed number
extraction, or reported zeros). -/
def primaryFails (p : PrimaryProbe) : Prop :=
  p.present = false ∨ (p.download = 0 ∧ p.upload = 0)

/-- The fallback download yields no usable rate: empty or unparsable curl
output, or a parsed rate of zero. -/
def fallbackFails (fb : Option ℚ) : Prop :=
  fb = none ∨ fb = some 0

/-- Claim C9: before the first refresh cycle, the probe cache holds
`available = false` and both rates `0`. -/
theorem speedCache_initial :
    cacheAfter [] = initSpeedResult ∧
    initSpeedResult.available = false ∧
    initSpeedResult.download_mbps = 0 ∧
    initSpeedResult.upload_mbps = 0 :=
  ⟨rfl, rfl, rfl, rfl⟩

/-- Counterexample to C2 as stated: after a successful cycle (primary
reports 50/10 Mbit/s) a cycle in which both methods fail rewrites the cache
to `available = false` with zero rates — the Measured state does transition
back to the Unmeasured shape, and the latest successful result is lost. -/
theorem speedCache_measured_lost :
    (cacheAfter [⟨⟨true, 50, 10⟩, none, "t1"⟩]).available = true ∧
    (cacheAfter [⟨⟨true, 50, 10⟩, none, "t1"⟩,
        ⟨⟨true, 0, 0⟩, none, "t2"⟩]).available = false ∧
    (cacheAfter [⟨⟨true, 50, 10⟩, none, "t1"⟩,
        ⟨⟨true, 0, 0⟩, none, "t2"⟩]).download_mbps = 0 ∧
    (cacheAfter [⟨⟨true, 50, 10⟩, none, "t1"⟩,
        ⟨⟨true, 0, 0⟩, none, "t2"⟩]).upload_mbps = 0 := by
  refine ⟨?_, rfl, rfl, rfl⟩
  norm_num [cacheAfter, refreshStep, updateSpeedTestCache, initSpeedResult]

/-- Claim C2 amended: the cache is written only by the refresher, and each
cycle replaces it wholesale with a value computed from that cycle's probe
outcomes alone — the previous state (Measured or not) never contributes, so
`Unmeasured → Measured` and `Measured → Measured` occur, but a failed cycle
also takes `Measured` back to the unmeasured shape. -/
theorem refreshStep_wholesale (prev prev' : SpeedTestResult) (c : Cycle) :
    refreshStep prev c = refreshStep prev' c := rfl

/-- Claim C3: a cycle in which the primary probe and the fallback download
both fail leaves the cache at `available = false` with both rates zero,
whatever the previous cache value was (wholesale replacement, no merging). -/
theorem refreshStep_bothFail (prev : SpeedTestResult) (c : Cycle)
    (hp : primaryFails c.primary) (hf : fallbackFails c.fallback) :
    refreshStep prev c = ⟨0, 0, c.ts, false⟩ := by
  obtain ⟨⟨pres, dl, ul⟩, fb, ts⟩ := c
  simp only [refreshStep, updateSpeedTestCache]
  rcases hp with hpres | ⟨hd, hu⟩
  · simp only at hpres
    subst hpres
    rcases hf with hnone | hzero
    · simp only at hnone
      subst hnone
      rfl
    · simp only at hzero
      subst hzero
      norm_num
  · simp only at hd hu
    subst hd
    subst hu
    rcases hf with hnone | hzero
    · simp only at hnone
      subst hnone
      cases pres <;> norm_num
    · simp only at hzero
      subst hzero
      cases pres <;> norm_num

/-- Witness for C3: a failed cycle over a previously successful cache. -/
theorem refreshStep_bothFail_witness :
    refreshStep ⟨100, 5, "old", true⟩ ⟨⟨false, 0, 0⟩, none, "t"⟩ =
      ⟨0, 0, "t", false⟩ :=
  refreshStep_bothFail ⟨100, 5, "old", true⟩ ⟨⟨false, 0, 0⟩, none, "t"⟩
    (Or.inl rfl) (Or.inl rfl)

/-- Claim C10: when the primary probe fails but the fallback parses a
positive bytes-per-second value `r`, the cycle stores `available = true`,
`download_mbps = r·8/10⁶` and `upload_mbps = 0` — the fallback never sets an
upload rate. -/
theorem refreshStep_fallback (prev : SpeedTestResult) (c : Cycle) (r : ℚ)
    (hp : primaryFails c.primary) (hf : c.fallback = some r) (hr : 0 < r) :
    refreshStep prev c = ⟨r * 8 / 1000000, 0, c.ts, true⟩ := by
  obtain ⟨⟨pres, dl, ul⟩, fb, ts⟩ := c
  simp only at hf
  subst hf
  simp only [refreshStep, updateSpeedTestCache]
  have hd : (0 : ℚ) < r * 8 / 1000000 := by positivity
  rcases hp with hpres | ⟨hdl, hul⟩
  · simp only at hpres
    subst hpres
    simp [hd, le_of_lt hd]
  · simp only at hdl hul
    subst hdl
    subst hul
    cases pres <;> simp [hd]

/-- Witness for C10: a fallback-only success of 10⁶ bytes/s yields 8 Mbit/s
download, zero upload. -/
theorem refreshStep_fallback_witness :
    refreshStep ⟨100, 5, "old", true⟩ ⟨⟨false, 0, 0⟩, some 1000000, "t"⟩ =
      ⟨(1000000 : ℚ) * 8 / 1000000, 0, "t", true⟩ :=
  refreshStep_fallback ⟨100, 5, "old", true⟩ ⟨⟨false, 0, 0⟩, some 1000000, "t"⟩
    1000000 (Or.inl rfl) rfl (by norm_num)

end ServerHealth
